import Mathlib

/-!
Verification of the RESPlateForm real-estate marketplace back end.

The definitions below are a shallow embedding of the repository's Python
(Django) source.  Coordinates and money amounts (`FloatField` /
`DecimalField` columns) are modelled as rationals; nullable columns as
`Option`; database tables as lists of records keyed by their primary-key
field.  Django's SQL `NULL` comparison semantics (a comparison against
`NULL` is false, so a row with a missing joined value never matches a
range filter) is modelled by the `Option` match arms returning `false`.
-/

namespace RESPlateForm

/-! ### Data model: property app (src/property/models.py) -/

/-- `Address` (src/property/models.py): geolocated postal address.
Only the columns the verified code touches are carried. -/
structure Address where
  address_id : Nat
  latitude : ℚ
  longitude : ℚ
  deriving DecidableEq, Repr

/-- `Property` (src/property/models.py): `address` is a nullable
foreign key (`on_delete=SET_NULL, null=True`), held as the key of the
referenced `Address` row. -/
structure Property where
  property_id : Nat
  address : Option Nat
  deriving DecidableEq, Repr

/-- `Listing` (src/property/models.py): a for-sale/rent offer tied to one
property.  `property` is the foreign-key value. -/
structure Listing where
  listing_id : Nat
  property : Nat
  price : ℚ
  bedrooms : Nat
  is_active : Bool
  views_count : Nat
  deriving DecidableEq, Repr

/-- The tables the geospatial code joins across
(`property__address__latitude` etc.). -/
structure GeoDB where
  addresses : List Address
  properties : List Property
  listings : List Listing
  deriving DecidableEq, Repr

/-- The ORM join `listing.property.address`: follow the `property` foreign
key, then the nullable `address` foreign key.  `none` when either link is
dangling or the address key is SQL `NULL`. -/
def listingAddress (db : GeoDB) (l : Listing) : Option Address :=
  match db.properties.find? (fun p => p.property_id == l.property) with
  | none => none
  | some p =>
    match p.address with
    | none => none
    | some aid => db.addresses.find? (fun a => a.address_id == aid)

/-- The four range conditions of the bounding-box filters:
`latitude ∈ [lat - r/111, lat + r/111]`, `longitude ∈ [lon - r/111, lon + r/111]`. -/
def inBoundingBox (latitude longitude radius_km : ℚ) (alat alon : ℚ) : Bool :=
  decide (latitude - radius_km / 111 ≤ alat) &&
  decide (alat ≤ latitude + radius_km / 111) &&
  decide (longitude - radius_km / 111 ≤ alon) &&
  decide (alon ≤ longitude + radius_km / 111)

/-- `ListingManager.within_radius` (src/property/models.py lines 564-572):
filter on `property__address__latitude/longitude` against the
`radius_km / 111` degree box, plus `is_active=True`.  A listing whose
property has no address row never matches (SQL `NULL` comparison). -/
def within_radius (db : GeoDB) (latitude longitude : ℚ) (radius_km : ℚ) : List Listing :=
  db.listings.filter (fun l =>
    (match listingAddress db l with
     | some a => inBoundingBox latitude longitude radius_km a.latitude a.longitude
     | none => false) && l.is_active)

/-! ### Data model: users app (src/users/models.py) -/

/-- `User` (src/users/models.py): the location columns are
`FloatField(blank=True, null=True)`. -/
structure User where
  user_id : Nat
  primary_location_latitude : Option ℚ
  primary_location_longitude : Option ℚ
  is_active : Bool
  deriving DecidableEq, Repr

/-- `UserManager.nearby_users` (src/users/models.py lines 39-46): the same
`distance_km / 111` degree box over `primary_location_latitude/longitude`,
with no activity filter.  A user with a `NULL` coordinate never matches. -/
def nearby_users (users : List User) (latitude longitude : ℚ) (distance_km : ℚ) : List User :=
  users.filter (fun u =>
    match u.primary_location_latitude, u.primary_location_longitude with
    | some la, some lo => inBoundingBox latitude longitude distance_km la lo
    | _, _ => false)

/-! ### Membership characterizations of the two proximity filters -/

theorem mem_within_radius_iff (db : GeoDB) (latitude longitude radius_km : ℚ) (l : Listing) :
    l ∈ within_radius db latitude longitude radius_km ↔
      l ∈ db.listings ∧ l.is_active = true ∧
        ∃ a, listingAddress db l = some a ∧
          inBoundingBox latitude longitude radius_km a.latitude a.longitude = true := by
  unfold within_radius
  rw [List.mem_filter]
  constructor
  · rintro ⟨hmem, hcond⟩
    rw [Bool.and_eq_true] at hcond
    obtain ⟨hbox, hact⟩ := hcond
    refine ⟨hmem, hact, ?_⟩
    cases haddr : listingAddress db l with
    | none => rw [haddr] at hbox; exact absurd hbox (by simp)
    | some a => rw [haddr] at hbox; exact ⟨a, rfl, hbox⟩
  · rintro ⟨hmem, hact, a, haddr, hbox⟩
    refine ⟨hmem, ?_⟩
    rw [Bool.and_eq_true, haddr]
    exact ⟨hbox, hact⟩

theorem mem_nearby_users_iff (users : List User) (latitude longitude distance_km : ℚ)
    (u : User) :
    u ∈ nearby_users users latitude longitude distance_km ↔
      u ∈ users ∧
        ∃ la lo, u.primary_location_latitude = some la ∧
          u.primary_location_longitude = some lo ∧
          inBoundingBox latitude longitude distance_km la lo = true := by
  unfold nearby_users
  rw [List.mem_filter]
  constructor
  · rintro ⟨hmem, hcond⟩
    refine ⟨hmem, ?_⟩
    cases hla : u.primary_location_latitude with
    | none => rw [hla] at hcond; exact absurd hcond (by simp)
    | some la =>
      cases hlo : u.primary_location_longitude with
      | none => rw [hla, hlo] at hcond; exact absurd hcond (by simp)
      | some lo =>
        rw [hla, hlo] at hcond
        exact ⟨la, lo, rfl, rfl, hcond⟩
  · rintro ⟨hmem, la, lo, hla, hlo, hbox⟩
    exact ⟨hmem, by rw [hla, hlo]; exact hbox⟩

theorem inBoundingBox_iff (latitude longitude radius_km la lo : ℚ) :
    inBoundingBox latitude longitude radius_km la lo = true ↔
      latitude - radius_km / 111 ≤ la ∧ la ≤ latitude + radius_km / 111 ∧
      longitude - radius_km / 111 ≤ lo ∧ lo ≤ longitude + radius_km / 111 := by
  simp [inBoundingBox, and_assoc]

/-- **C1** (amended): for every center and radius, `nearby_users` returns
exactly the users whose stored latitude lies in
`[lat - r/111, lat + r/111]` and longitude in `[lon - r/111, lon + r/111]`,
and `within_radius` returns exactly the listings satisfying the same box
conditions that in addition have `is_active = true`; the same uncorrected
delta `radius_km / 111` is used for both latitude and longitude. -/
theorem C1_proximity_filter_exact_box (db : GeoDB) (users : List User)
    (latitude longitude radius_km : ℚ) :
    (∀ l : Listing, l ∈ within_radius db latitude longitude radius_km ↔
       l ∈ db.listings ∧ l.is_active = true ∧
         ∃ a, listingAddress db l = some a ∧
           latitude - radius_km / 111 ≤ a.latitude ∧
           a.latitude ≤ latitude + radius_km / 111 ∧
           longitude - radius_km / 111 ≤ a.longitude ∧
           a.longitude ≤ longitude + radius_km / 111) ∧
    (∀ u : User, u ∈ nearby_users users latitude longitude radius_km ↔
       u ∈ users ∧
         ∃ la lo, u.primary_location_latitude = some la ∧
           u.primary_location_longitude = some lo ∧
           latitude - radius_km / 111 ≤ la ∧ la ≤ latitude + radius_km / 111 ∧
           longitude - radius_km / 111 ≤ lo ∧ lo ≤ longitude + radius_km / 111) := by
  constructor
  · intro l
    rw [mem_within_radius_iff]
    refine and_congr_right fun _ => and_congr_right fun _ => exists_congr fun a => ?_
    rw [inBoundingBox_iff]
  · intro u
    rw [mem_nearby_users_iff]
    refine and_congr_right fun _ => exists_congr fun la => exists_congr fun lo => ?_
    refine and_congr_right fun _ => and_congr_right fun _ => ?_
    rw [inBoundingBox_iff]

/-- A concrete database for the C1 counterexample: one address at the
origin, one property pointing at it, and one *inactive* listing on that
property. -/
def cexAddress : Address := ⟨1, 0, 0⟩

def cexProperty : Property := ⟨1, some 1⟩

def cexListing : Listing := ⟨1, 1, 100, 2, false, 0⟩

def cexGeoDB : GeoDB := ⟨[cexAddress], [cexProperty], [cexListing]⟩

/-- **C1** counterexample: the inactive listing `cexListing` is stored, its
latitude and longitude both lie inside the query box of center `(0,0)` and
radius `5`, yet `within_radius` does not return it — so the filter does
*not* return exactly the records whose coordinates lie in the box. -/
theorem C1_counterexample :
    (cexListing ∈ cexGeoDB.listings ∧
     listingAddress cexGeoDB cexListing = some cexAddress ∧
     (0 : ℚ) - 5 / 111 ≤ cexAddress.latitude ∧
     cexAddress.latitude ≤ (0 : ℚ) + 5 / 111 ∧
     (0 : ℚ) - 5 / 111 ≤ cexAddress.longitude ∧
     cexAddress.longitude ≤ (0 : ℚ) + 5 / 111) ∧
    cexListing ∉ within_radius cexGeoDB 0 0 5 := by
  refine ⟨⟨by simp [cexGeoDB], rfl, ?_, ?_, ?_, ?_⟩, ?_⟩
  · show (0 : ℚ) - 5 / 111 ≤ 0; norm_num
  · show (0 : ℚ) ≤ 0 + 5 / 111; norm_num
  · show (0 : ℚ) - 5 / 111 ≤ 0; norm_num
  · show (0 : ℚ) ≤ 0 + 5 / 111; norm_num
  · intro h
    rw [mem_within_radius_iff] at h
    exact absurd h.2.1 (by simp [cexListing])

/-- **C2**: the bounding-box filter never under-selects within the
inscribed circle of the box.  Any stored active listing whose coordinates
lie within the inscribed circle — squared degree-space distance from the
center at most `(radius_km / 111)²` — is returned by `within_radius`
(over-selection at the box corners remains possible). -/
theorem C2_no_underselect_in_inscribed_circle (db : GeoDB)
    (latitude longitude radius_km : ℚ) (hr : 0 ≤ radius_km)
    (l : Listing) (a : Address)
    (hmem : l ∈ db.listings) (hact : l.is_active = true)
    (haddr : listingAddress db l = some a)
    (hcirc : (a.latitude - latitude) ^ 2 + (a.longitude - longitude) ^ 2 ≤
      (radius_km / 111) ^ 2) :
    l ∈ within_radius db latitude longitude radius_km := by
  rw [mem_within_radius_iff]
  refine ⟨hmem, hact, a, haddr, ?_⟩
  rw [inBoundingBox_iff]
  have hd : (0 : ℚ) ≤ radius_km / 111 := by positivity
  refine ⟨?_, ?_, ?_, ?_⟩
  · nlinarith [sq_nonneg (a.latitude - latitude + radius_km / 111),
      sq_nonneg (a.longitude - longitude)]
  · nlinarith [sq_nonneg (a.latitude - latitude - radius_km / 111),
      sq_nonneg (a.longitude - longitude)]
  · nlinarith [sq_nonneg (a.longitude - longitude + radius_km / 111),
      sq_nonneg (a.latitude - latitude)]
  · nlinarith [sq_nonneg (a.longitude - longitude - radius_km / 111),
      sq_nonneg (a.latitude - latitude)]

/-- Witness data for C2: an active listing 0.01° from the query center. -/
def wAddress : Address := ⟨2, 1 / 100, 1 / 100⟩

def wProperty : Property := ⟨2, some 2⟩

def wListing : Listing := ⟨2, 2, 250, 1, true, 0⟩

def wGeoDB : GeoDB := ⟨[wAddress], [wProperty], [wListing]⟩

/-- **C2** witness: the inscribed-circle guarantee applied at the concrete
database `wGeoDB`, center `(0,0)`, radius 5 km. -/
theorem C2_witness : wListing ∈ within_radius wGeoDB 0 0 5 :=
  C2_no_underselect_in_inscribed_circle wGeoDB 0 0 5 (by norm_num)
    wListing wAddress (by simp [wGeoDB]) rfl rfl
    (by show ((1 : ℚ) / 100 - 0) ^ 2 + (1 / 100 - 0) ^ 2 ≤ (5 / 111) ^ 2; norm_num)

/-! ### SystemConfig (src/main/models.py) -/

/-- `SystemConfig` (src/main/models.py): only the primary key and the
active flag take part in the verified invariant. -/
structure SystemConfig where
  config_id : Nat
  is_active : Bool
  deriving DecidableEq, Repr

/-- `SystemConfig.save` (src/main/models.py lines 61-64): when the saved
record is active, first run
`SystemConfig.objects.filter(is_active=True).exclude(config_id=self.config_id).update(is_active=False)`,
then `super().save()` — which updates the row with the same primary key if
one exists and inserts a new row otherwise. -/
def SystemConfig.save (db : List SystemConfig) (c : SystemConfig) : List SystemConfig :=
  let db' := if c.is_active then
      db.map (fun r =>
        if r.is_active && !(r.config_id == c.config_id) then { r with is_active := false }
        else r)
    else db
  if db'.any (fun r => r.config_id == c.config_id) then
    db'.map (fun r => if r.config_id == c.config_id then c else r)
  else db' ++ [c]

/-- Number of rows with `is_active = true`. -/
def activeCount (db : List SystemConfig) : Nat :=
  db.countP (fun r => r.is_active)

/-- Primary-key uniqueness of the `SystemConfig` table. -/
def idsNodup (db : List SystemConfig) : Prop :=
  (db.map (fun r => r.config_id)).Nodup

theorem length_le_one_of_all_eq {α : Type _} (l : List α) (k : α)
    (hn : l.Nodup) (h : ∀ x ∈ l, x = k) : l.length ≤ 1 := by
  match l with
  | [] => simp
  | [a] => simp
  | a :: b :: t =>
    exfalso
    have ha : a = k := h a (by simp)
    have hb : b = k := h b (by simp)
    rw [List.nodup_cons] at hn
    exact hn.1 (by simp [ha, hb])

theorem save_active_uniform (db : List SystemConfig) (c : SystemConfig)
    (hc : c.is_active = true) :
    ∀ r ∈ SystemConfig.save db c, r.is_active = true → r.config_id = c.config_id := by
  intro r hr hra
  unfold SystemConfig.save at hr
  rw [hc] at hr
  simp only [if_true] at hr
  have hdeact : ∀ s ∈ db.map (fun r =>
      if r.is_active && !(r.config_id == c.config_id) then { r with is_active := false }
      else r), s.is_active = true → s.config_id = c.config_id := by
    intro s hs hsa
    rw [List.mem_map] at hs
    obtain ⟨s0, _, rfl⟩ := hs
    by_cases hcase : (s0.is_active && !(s0.config_id == c.config_id)) = true
    · rw [if_pos hcase] at hsa ⊢
      exact absurd hsa (by simp)
    · rw [if_neg hcase] at hsa ⊢
      rw [Bool.and_eq_true, Bool.not_eq_true', beq_eq_false_iff_ne] at hcase
      push_neg at hcase
      exact hcase hsa
  by_cases hupd : (db.map (fun r =>
      if r.is_active && !(r.config_id == c.config_id) then { r with is_active := false }
      else r)).any (fun r => r.config_id == c.config_id) = true
  · rw [if_pos hupd, List.mem_map] at hr
    obtain ⟨r0, hr0, rfl⟩ := hr
    by_cases hid : (r0.config_id == c.config_id) = true
    · rw [if_pos hid]
    · rw [if_neg hid] at hra ⊢
      exact hdeact r0 hr0 hra
  · rw [if_neg hupd, List.mem_append] at hr
    rcases hr with hr | hr
    · exact hdeact r hr hra
    · rw [List.mem_singleton] at hr
      rw [hr]

theorem save_ids_nodup (db : List SystemConfig) (c : SystemConfig)
    (hn : idsNodup db) : idsNodup (SystemConfig.save db c) := by
  unfold SystemConfig.save
  have hids : ∀ (l : List SystemConfig),
      (l.map (fun r =>
        if r.is_active && !(r.config_id == c.config_id) then { r with is_active := false }
        else r)).map (fun r => r.config_id) = l.map (fun r => r.config_id) := by
    intro l
    rw [List.map_map]
    refine List.map_congr_left fun r _ => ?_
    simp only [Function.comp_apply]
    split <;> rfl
  set db' := if c.is_active then
      db.map (fun r =>
        if r.is_active && !(r.config_id == c.config_id) then { r with is_active := false }
        else r)
    else db with hdb'
  have hn' : idsNodup db' := by
    rw [hdb']
    by_cases hc : c.is_active = true
    · rw [if_pos hc]
      unfold idsNodup
      rw [hids db]
      exact hn
    · rw [if_neg hc]; exact hn
  by_cases hupd : db'.any (fun r => r.config_id == c.config_id) = true
  · rw [if_pos hupd]
    unfold idsNodup
    have hmap : (db'.map (fun r => if r.config_id == c.config_id then c else r)).map
        (fun r => r.config_id) = db'.map (fun r => r.config_id) := by
      rw [List.map_map]
      refine List.map_congr_left fun r _ => ?_
      simp only [Function.comp_apply]
      split
      · rename_i hid
        exact (beq_iff_eq.mp hid).symm
      · rfl
    rw [hmap]
    exact hn'
  · rw [if_neg hupd]
    unfold idsNodup
    rw [List.map_append]
    rw [List.nodup_append]
    refine ⟨hn', by simp, ?_⟩
    intro x hx hxc
    rw [List.mem_map] at hx
    obtain ⟨r, hrmem, rfl⟩ := hx
    simp only [List.map_cons, List.map_nil, List.mem_singleton] at hxc
    rw [List.any_eq_true] at hupd
    exact hupd ⟨r, hrmem, by simp [hxc]⟩

theorem activeCount_le_one_of_uniform (l : List SystemConfig) (k : Nat)
    (hn : idsNodup l)
    (h : ∀ r ∈ l, r.is_active = true → r.config_id = k) :
    activeCount l ≤ 1 := by
  unfold activeCount
  rw [List.countP_eq_length_filter]
  have hsub : List.Sublist ((l.filter (fun r => r.is_active)).map (fun r => r.config_id))
      (l.map (fun r => r.config_id)) :=
    List.Sublist.map (fun r => r.config_id) (List.filter_sublist l)
  have hnf : ((l.filter (fun r => r.is_active)).map (fun r => r.config_id)).Nodup :=
    List.Nodup.sublist hsub hn
  have hlen : (l.filter (fun r => r.is_active)).length =
      ((l.filter (fun r => r.is_active)).map (fun r => r.config_id)).length := by
    rw [List.length_map]
  rw [hlen]
  refine length_le_one_of_all_eq _ k hnf ?_
  intro x hx
  rw [List.mem_map] at hx
  obtain ⟨r, hr, rfl⟩ := hx
  rw [List.mem_filter] at hr
  exact h r hr.1 hr.2

theorem save_activeCount_le_of_inactive (db : List SystemConfig) (c : SystemConfig)
    (hc : c.is_active = false) :
    activeCount (SystemConfig.save db c) ≤ activeCount db := by
  unfold SystemConfig.save
  rw [hc]
  simp only [Bool.false_eq_true, if_false]
  by_cases hupd : db.any (fun r => r.config_id == c.config_id) = true
  · rw [if_pos hupd]
    unfold activeCount
    rw [List.countP_map]
    refine List.countP_mono_left fun r _ hr => ?_
    by_cases hid : (r.config_id == c.config_id) = true
    · exfalso
      simp only [Function.comp_apply, if_pos hid] at hr
      rw [hr] at hc
      exact absurd hc (by simp)
    · simpa only [Function.comp_apply, if_neg hid] using hr
  · rw [if_neg hupd]
    unfold activeCount
    rw [List.countP_append]
    have : List.countP (fun r => r.is_active) [c] = 0 := by simp [hc]
    omega

theorem save_preserves_invariant (db : List SystemConfig) (c : SystemConfig)
    (hn : idsNodup db) (hinv : activeCount db ≤ 1) :
    activeCount (SystemConfig.save db c) ≤ 1 := by
  by_cases hc : c.is_active = true
  · exact activeCount_le_one_of_uniform _ c.config_id (save_ids_nodup db c hn)
      (save_active_uniform db c hc)
  · rw [Bool.not_eq_true] at hc
    exact le_trans (save_activeCount_le_of_inactive db c hc) hinv

theorem foldl_save_invariant (cs : List SystemConfig) (db : List SystemConfig)
    (hn : idsNodup db) (hinv : activeCount db ≤ 1) :
    activeCount (cs.foldl SystemConfig.save db) ≤ 1 ∧
      idsNodup (cs.foldl SystemConfig.save db) := by
  induction cs generalizing db with
  | nil => exact ⟨hinv, hn⟩
  | cons c cs ih =>
    exact ih (SystemConfig.save db c) (save_ids_nodup db c hn)
      (save_preserves_invariant db c hn hinv)

/-- **C3**: at most one `SystemConfig` row is active after any sequence of
saves by a single writer.  (i) Saving an active record deactivates every
other active record: afterwards every active row carries the saved
record's key.  (ii) Each save preserves the at-most-one-active invariant
on a table with unique keys.  (iii) Hence after any sequence of saves
starting from the empty table, at most one row has `is_active = true`. -/
theorem C3_single_active_system_config :
    (∀ (db : List SystemConfig) (c : SystemConfig), c.is_active = true →
      ∀ r ∈ SystemConfig.save db c, r.is_active = true → r.config_id = c.config_id) ∧
    (∀ (db : List SystemConfig) (c : SystemConfig), idsNodup db →
      activeCount db ≤ 1 → activeCount (SystemConfig.save db c) ≤ 1) ∧
    (∀ cs : List SystemConfig, activeCount (cs.foldl SystemConfig.save []) ≤ 1) :=
  ⟨fun db c hc => save_active_uniform db c hc,
   fun db c hn hinv => save_preserves_invariant db c hn hinv,
   fun cs => (foldl_save_invariant cs [] (by simp [idsNodup]) (by simp [activeCount])).1⟩

/-- **C3** witness: the preservation part of the invariant applied to the
concrete one-row table `[⟨1, true⟩]` and the save of the active record
`⟨2, true⟩`. -/
theorem C3_witness :
    activeCount (SystemConfig.save [⟨1, true⟩] ⟨2, true⟩) ≤ 1 :=
  C3_single_active_system_config.2.1 [⟨1, true⟩] ⟨2, true⟩
    (by simp [idsNodup]) (by simp [activeCount])

/-! ### AdCampaign (src/main/models.py) -/

/-- `AdCampaign` (src/main/models.py): budget columns are
`DecimalField(null=True)`, the owner is the `user` foreign key. -/
structure AdCampaign where
  campaign_id : Nat
  user : Nat
  budget : Option ℚ
  total_spent : Option ℚ
  remaining_budget : Option ℚ
  deriving DecidableEq, Repr

/-- `AdCampaign.save` (src/main/models.py lines 187-190):
`if self.budget is not None and self.total_spent is not None:
self.remaining_budget = self.budget - self.total_spent`, then the row is
persisted with these fields. -/
def AdCampaign.save (c : AdCampaign) : AdCampaign :=
  match c.budget, c.total_spent with
  | some b, some t => { c with remaining_budget := some (b - t) }
  | _, _ => c

/-- **C4**: for every `AdCampaign` with non-null `budget` and
`total_spent`, immediately after a save the stored `remaining_budget`
equals `budget - total_spent`. -/
theorem C4_remaining_budget_invariant (c : AdCampaign) (b t : ℚ)
    (hb : c.budget = some b) (ht : c.total_spent = some t) :
    (AdCampaign.save c).remaining_budget = some (b - t) := by
  unfold AdCampaign.save
  rw [hb, ht]

/-- **C4** witness: the invariant applied to a concrete campaign with
budget 1000 and spend 250. -/
theorem C4_witness :
    (AdCampaign.save ⟨7, 3, some 1000, some 250, none⟩).remaining_budget =
      some (1000 - 250) :=
  C4_remaining_budget_invariant ⟨7, 3, some 1000, some 250, none⟩ 1000 250 rfl rfl

/-! ### Message (src/main/models.py) -/

/-- `Message` (src/main/models.py): a directed edge between two users;
`read_at` is `DateTimeField(null=True)`, held as an abstract timestamp. -/
structure Message where
  message_id : Nat
  sender : Nat
  recipient : Nat
  is_read : Bool
  read_at : Option Nat
  deriving DecidableEq, Repr

/-- `Message.mark_as_read` (src/main/models.py lines 743-747):
`if not self.is_read: self.is_read = True; self.read_at = timezone.now();
self.save()`.  The current time is passed explicitly. -/
def Message.mark_as_read (now : Nat) (m : Message) : Message :=
  if !m.is_read then { m with is_read := true, read_at := some now } else m

/-- **C8**: marking an unread message read sets `is_read = true` and
stamps `read_at` with the current time; marking an already-read message is
a no-op that changes no field; hence a second `mark_as_read` call never
changes anything, and in particular `read_at` keeps its original value. -/
theorem C8_mark_as_read_idempotent :
    (∀ (m : Message) (t : Nat), m.is_read = false →
      (Message.mark_as_read t m).is_read = true ∧
        (Message.mark_as_read t m).read_at = some t) ∧
    (∀ (m : Message) (t : Nat), m.is_read = true → Message.mark_as_read t m = m) ∧
    (∀ (m : Message) (t₁ t₂ : Nat),
      Message.mark_as_read t₂ (Message.mark_as_read t₁ m) = Message.mark_as_read t₁ m) := by
  refine ⟨?_, ?_, ?_⟩
  · intro m t hm
    unfold Message.mark_as_read
    rw [hm]
    exact ⟨rfl, rfl⟩
  · intro m t hm
    simp [Message.mark_as_read, hm]
  · intro m t₁ t₂
    by_cases hm : m.is_read = true
    · simp [Message.mark_as_read, hm]
    · rw [Bool.not_eq_true] at hm
      simp [Message.mark_as_read, hm]

/-- **C8** witness: the fresh-read clause applied to a concrete unread
message at time 42, and the no-op clause to a concrete read message. -/
theorem C8_witness :
    ((Message.mark_as_read 42 ⟨5, 1, 2, false, none⟩).is_read = true ∧
      (Message.mark_as_read 42 ⟨5, 1, 2, false, none⟩).read_at = some 42) ∧
    Message.mark_as_read 99 ⟨6, 1, 2, true, some 42⟩ = ⟨6, 1, 2, true, some 42⟩ :=
  ⟨C8_mark_as_read_idempotent.1 ⟨5, 1, 2, false, none⟩ 42 rfl,
   C8_mark_as_read_idempotent.2.1 ⟨6, 1, 2, true, some 42⟩ 99 rfl⟩

/-! ### REST endpoints (src/main/views.py) -/

/-- `MarkMessageReadAPIView.post` (src/main/views.py lines 276-281):
`get_object_or_404(Message, message_id=message_id, recipient=request.user)`
— a lookup filtered by both the key and the recipient, answering HTTP 404
when no row matches — then `message.mark_as_read()` and HTTP 200. -/
def markMessageReadPost (db : List Message) (requester message_id now : Nat) :
    Nat × List Message :=
  match db.find? (fun m => m.message_id == message_id && m.recipient == requester) with
  | none => (404, db)
  | some _ =>
    (200, db.map (fun m =>
      if m.message_id == message_id && m.recipient == requester
      then Message.mark_as_read now m else m))

/-- `AdCampaignDetailAPIView` (src/main/views.py lines 86-91): a
retrieve/update/destroy endpoint whose queryset is
`AdCampaign.objects.filter(user=self.request.user)`; `IsAuthenticated`
rejects anonymous callers before any handler runs, and an update resolves
the object inside the owner-filtered queryset — a miss is HTTP 404. -/
def adCampaignDetailUpdate (db : List AdCampaign) (requester : Option Nat)
    (campaign_id : Nat) (newBudget newSpent : Option ℚ) : Nat × List AdCampaign :=
  match requester with
  | none => (401, db)
  | some u =>
    match (db.filter (fun cp => cp.user == u)).find?
        (fun cp => cp.campaign_id == campaign_id) with
    | none => (404, db)
    | some cp =>
      let cp' := AdCampaign.save { cp with budget := newBudget, total_spent := newSpent }
      (200, db.map (fun x => if x.campaign_id == campaign_id then cp' else x))

/-- A concrete message owned by recipient 1 for the C6 counterexample. -/
def c6Message : Message := ⟨10, 3, 1, false, none⟩

/-- **C6** counterexample: user 2 — who is not the recipient of stored
message 10 — posts to mark-message-read and receives HTTP **404**, not the
403 the claim asserts; the table is unchanged. -/
theorem C6_counterexample :
    markMessageReadPost [c6Message] 2 10 5 = (404, [c6Message]) ∧
      (404 : Nat) ≠ 403 := by
  constructor
  · rfl
  · decide

/-- **C6** (amended): a non-owner's attempt to mutate another user's
record fails with HTTP **404** (the record is hidden from non-owners by
queryset filtering, so the failure surfaces as not-found rather than
403/permission-denied), and the stored data is unchanged: a non-recipient
posting to mark-message-read gets 404, and an authenticated non-owner
updating another user's AdCampaign gets 404. -/
theorem C6_non_owner_mutation_is_404 :
    (∀ (db : List Message) (requester message_id now : Nat),
      (∀ m ∈ db, m.message_id = message_id → m.recipient ≠ requester) →
      markMessageReadPost db requester message_id now = (404, db)) ∧
    (∀ (db : List AdCampaign) (u campaign_id : Nat) (nb ns : Option ℚ),
      (∀ cp ∈ db, cp.campaign_id = campaign_id → cp.user ≠ u) →
      adCampaignDetailUpdate db (some u) campaign_id nb ns = (404, db)) := by
  constructor
  · intro db requester message_id now h
    unfold markMessageReadPost
    have hfind : db.find?
        (fun m => m.message_id == message_id && m.recipient == requester) = none := by
      rw [List.find?_eq_none]
      intro m hm
      rw [Bool.and_eq_true, beq_iff_eq, beq_iff_eq]
      rintro ⟨hid, hrec⟩
      exact h m hm hid hrec
    rw [hfind]
  · intro db u campaign_id nb ns h
    have hfind : (db.filter (fun cp => cp.user == u)).find?
        (fun cp => cp.campaign_id == campaign_id) = none := by
      rw [List.find?_eq_none]
      intro cp hcp
      rw [List.mem_filter, beq_iff_eq] at hcp
      rw [beq_iff_eq]
      intro hid
      exact absurd hcp.2 (h cp hcp.1 hid)
    simp only [adCampaignDetailUpdate, hfind]

/-- **C6** witness: both clauses of the amended claim applied to concrete
one-row tables owned by user 1, mutated by user 2. -/
theorem C6_witness :
    markMessageReadPost [c6Message] 2 10 5 = (404, [c6Message]) ∧
      adCampaignDetailUpdate [⟨7, 1, none, none, none⟩] (some 2) 7 none none =
        (404, [⟨7, 1, none, none, none⟩]) :=
  ⟨C6_non_owner_mutation_is_404.1 [c6Message] 2 10 5 (by decide),
   C6_non_owner_mutation_is_404.2 [⟨7, 1, none, none, none⟩] 2 7 none none
     (by intro cp hcp; rw [List.mem_singleton] at hcp; subst hcp; decide)⟩

/-- `AdCampaignListCreateAPIView` (src/main/views.py lines 78-84):
`permission_classes = [IsAuthenticated]` rejects anonymous callers before
the create handler runs (HTTP 401 under the default authenticators);
otherwise `perform_create` saves a new campaign owned by the requester. -/
def adCampaignListCreatePost (db : List AdCampaign) (requester : Option Nat)
    (campaign_id : Nat) (budget total_spent : Option ℚ) : Nat × List AdCampaign :=
  match requester with
  | none => (401, db)
  | some u =>
    let c := AdCampaign.save
      { campaign_id := campaign_id, user := u, budget := budget,
        total_spent := total_spent, remaining_budget := none }
    (201, db ++ [c])

/-- **C7**: posting to the AdCampaign create endpoint without
authentication returns an authorization failure (401 or 403) and the
stored `AdCampaign` table is unchanged — no record is created on the
error path. -/
theorem C7_unauthenticated_create_rejected (db : List AdCampaign)
    (campaign_id : Nat) (budget total_spent : Option ℚ) :
    ((adCampaignListCreatePost db none campaign_id budget total_spent).1 = 401 ∨
      (adCampaignListCreatePost db none campaign_id budget total_spent).1 = 403) ∧
    (adCampaignListCreatePost db none campaign_id budget total_spent).2 = db :=
  ⟨Or.inl rfl, rfl⟩

/-! ### MapCluster aggregation (src/property/models.py, src/property/views.py) -/

/-- `MapCluster` (src/property/models.py): a cached aggregate for a fixed
geographic circle; `avg_price` is a nullable decimal column. -/
structure MapCluster where
  cluster_id : Nat
  center_latitude : ℚ
  center_longitude : ℚ
  radius_km : ℚ
  property_count : Nat
  listing_count : Nat
  avg_price : Option ℚ
  deriving DecidableEq, Repr

/-- The body of the `update_map_clusters` loop
(src/property/views.py lines 50-59) for one cluster:
`listings = Listing.objects.within_radius(center_latitude, center_longitude, radius_km)`;
`property_count = listings.values('property').distinct().count()`;
`listing_count = listings.count()`;
`avg_price = listings.aggregate(Avg('price'))['price__avg'] or 0`
(the SQL average is `NULL` over an empty set, so `or 0` turns it into 0). -/
def updateCluster (db : GeoDB) (c : MapCluster) : MapCluster :=
  let listings := within_radius db c.center_latitude c.center_longitude c.radius_km
  { c with
    property_count := ((listings.map (fun l => l.property)).dedup).length
    listing_count := listings.length
    avg_price := some (if listings.length = 0 then 0
      else (listings.map (fun l => l.price)).sum / (listings.length : ℚ)) }

/-- `update_map_clusters` (src/property/views.py lines 50-59): recompute
every registered cluster. -/
def update_map_clusters (db : GeoDB) (clusters : List MapCluster) : List MapCluster :=
  clusters.map (updateCluster db)

/-- **C5**: for every registered cluster, the recomputation selects the
listings via the proximity filter for the cluster's center and radius and
sets `listing_count` to their number, `property_count` to the number of
distinct properties among them, and — whenever there is at least one such
listing — `avg_price` to the arithmetic mean of their prices. -/
theorem C5_cluster_aggregates (db : GeoDB) (clusters : List MapCluster)
    (c : MapCluster) (hc : c ∈ clusters) :
    updateCluster db c ∈ update_map_clusters db clusters ∧
    (updateCluster db c).listing_count =
      (within_radius db c.center_latitude c.center_longitude c.radius_km).length ∧
    (updateCluster db c).property_count =
      ((within_radius db c.center_latitude c.center_longitude c.radius_km).map
        (fun l => l.property)).toFinset.card ∧
    (within_radius db c.center_latitude c.center_longitude c.radius_km ≠ [] →
      (updateCluster db c).avg_price =
        some (((within_radius db c.center_latitude c.center_longitude c.radius_km).map
            (fun l => l.price)).sum /
          ((within_radius db c.center_latitude c.center_longitude c.radius_km).length : ℚ))) := by
  refine ⟨List.mem_map.mpr ⟨c, hc, rfl⟩, rfl, ?_, ?_⟩
  · rw [List.card_toFinset]; rfl
  · intro hne
    have hlen : (within_radius db c.center_latitude c.center_longitude c.radius_km).length ≠ 0 :=
      fun h => hne (List.length_eq_zero.mp h)
    simp only [updateCluster, if_neg hlen]

/-- Witness data for C5: one active listing at the origin and one cluster
centered there. -/
def mAddress : Address := ⟨3, 0, 0⟩

def mProperty : Property := ⟨3, some 3⟩

def mListing : Listing := ⟨3, 3, 500, 2, true, 0⟩

def mGeoDB : GeoDB := ⟨[mAddress], [mProperty], [mListing]⟩

def mCluster : MapCluster := ⟨1, 0, 0, 5, 0, 0, none⟩

/-- **C5** witness: the aggregation contract applied to the concrete
database `mGeoDB` and the cluster `mCluster` registered in a one-cluster
table. -/
theorem C5_witness :
    updateCluster mGeoDB mCluster ∈ update_map_clusters mGeoDB [mCluster] ∧
    (updateCluster mGeoDB mCluster).listing_count =
      (within_radius mGeoDB 0 0 5).length ∧
    (updateCluster mGeoDB mCluster).property_count =
      ((within_radius mGeoDB 0 0 5).map (fun l => l.property)).toFinset.card ∧
    (within_radius mGeoDB 0 0 5 ≠ [] →
      (updateCluster mGeoDB mCluster).avg_price =
        some (((within_radius mGeoDB 0 0 5).map (fun l => l.price)).sum /
          ((within_radius mGeoDB 0 0 5).length : ℚ))) :=
  C5_cluster_aggregates mGeoDB [mCluster] mCluster (by simp)

/-- **C9**: the proximity filters perform no coordinate-range validation.
Even when the center is outside `[-90, 90]` latitude or `[-180, 180]`
longitude, both filters are total and return a result set characterized by
exactly the same bounding-box arithmetic as for in-range inputs — no
branch rejects or errors on malformed coordinates. -/
theorem C9_no_coordinate_validation (db : GeoDB) (users : List User)
    (latitude longitude radius_km : ℚ)
    (_hout : 90 < |latitude| ∨ 180 < |longitude|) :
    (∀ l : Listing, l ∈ within_radius db latitude longitude radius_km ↔
      l ∈ db.listings ∧ l.is_active = true ∧
        ∃ a, listingAddress db l = some a ∧
          inBoundingBox latitude longitude radius_km a.latitude a.longitude = true) ∧
    (∀ u : User, u ∈ nearby_users users latitude longitude radius_km ↔
      u ∈ users ∧
        ∃ la lo, u.primary_location_latitude = some la ∧
          u.primary_location_longitude = some lo ∧
          inBoundingBox latitude longitude radius_km la lo = true) :=
  ⟨fun l => mem_within_radius_iff db latitude longitude radius_km l,
   fun u => mem_nearby_users_iff users latitude longitude radius_km u⟩

/-- Witness data for C9: a stored address at the malformed latitude 500. -/
def c9Address : Address := ⟨4, 500, 0⟩

def c9Property : Property := ⟨4, some 4⟩

def c9Listing : Listing := ⟨4, 4, 100, 1, true, 0⟩

def c9GeoDB : GeoDB := ⟨[c9Address], [c9Property], [c9Listing]⟩

/-- **C9** witness: querying from the out-of-range center `(500, 0)` is
answered without error, by the same box arithmetic — the listing stored at
latitude 500 is returned. -/
theorem C9_witness : c9Listing ∈ within_radius c9GeoDB 500 0 5 :=
  ((C9_no_coordinate_validation c9GeoDB [] 500 0 5 (by norm_num)).1 c9Listing).mpr
    ⟨by simp [c9GeoDB], rfl,
     c9Address, rfl, by rw [inBoundingBox_iff]; norm_num [c9Address]⟩

/-! ### ListingDetailView.get (src/property/views.py lines 163-173) -/

/-- The deterministic cache key `f"listing_detail_{listing_id}"`. -/
def listing_detail_cache_key (listing_id : Nat) : String :=
  "listing_detail_" ++ toString listing_id

/-- `ListingDetailView.get` (src/property/views.py lines 163-173): look up
`cache.get(cache_key)` and serve the memoized response when present;
otherwise fetch the listing, increment `views_count`,
`save(update_fields=['views_count'])` (persisting only that column), and
store the serialized response under the key.  Returns
(response body, updated database, updated cache). -/
def listingDetailGet (db : GeoDB) (store : List (String × Listing)) (listing_id : Nat) :
    Option Listing × GeoDB × List (String × Listing) :=
  let key := listing_detail_cache_key listing_id
  match store.lookup key with
  | some d => (some d, db, store)
  | none =>
    match db.listings.find? (fun l => l.listing_id == listing_id) with
    | none => (none, db, store)
    | some l =>
      let l' := { l with views_count := l.views_count + 1 }
      ( some l',
        { db with listings := db.listings.map (fun x =>
            if x.listing_id == listing_id
            then { x with views_count := x.views_count + 1 } else x) },
        (key, l') :: store )

/-- **C10**: on a cache hit the listing-detail read serves the cached body
and leaves every stored field — `views_count` included — and the cache
unchanged; on a cache miss the read changes no listing except the
requested one, whose `views_count` grows by exactly 1 while every other
field keeps its value. -/
theorem C10_listing_detail_read_effects :
    (∀ (db : GeoDB) (store : List (String × Listing)) (listing_id : Nat) (d : Listing),
      store.lookup (listing_detail_cache_key listing_id) = some d →
      listingDetailGet db store listing_id = (some d, db, store)) ∧
    (∀ (db : GeoDB) (store : List (String × Listing)) (listing_id : Nat),
      store.lookup (listing_detail_cache_key listing_id) = none →
      (listingDetailGet db store listing_id).2.1.listings.length = db.listings.length ∧
      ∀ (i : Nat) (x : Listing), db.listings[i]? = some x →
        ∃ x', (listingDetailGet db store listing_id).2.1.listings[i]? = some x' ∧
          x'.views_count =
            (if x.listing_id = listing_id then x.views_count + 1 else x.views_count) ∧
          x'.listing_id = x.listing_id ∧ x'.property = x.property ∧
          x'.price = x.price ∧ x'.bedrooms = x.bedrooms ∧
          x'.is_active = x.is_active) := by
  constructor
  · intro db store listing_id d hhit
    simp only [listingDetailGet, hhit]
  · intro db store listing_id hmiss
    simp only [listingDetailGet, hmiss]
    cases hfind : db.listings.find? (fun l => l.listing_id == listing_id) with
    | none =>
      refine ⟨rfl, ?_⟩
      intro i x hx
      have hxm : x ∈ db.listings := List.getElem?_mem hx
      have hne : ¬(x.listing_id == listing_id) = true :=
        List.find?_eq_none.mp hfind x hxm
      rw [beq_iff_eq] at hne
      exact ⟨x, hx, by rw [if_neg hne], rfl, rfl, rfl, rfl, rfl⟩
    | some l =>
      refine ⟨List.length_map _ _, ?_⟩
      intro i x hx
      refine ⟨if x.listing_id == listing_id
        then { x with views_count := x.views_count + 1 } else x, ?_, ?_⟩
      · show (db.listings.map _)[i]? = _
        rw [List.getElem?_map, hx]
        rfl
      · by_cases hid : x.listing_id = listing_id
        · rw [if_pos (beq_iff_eq.mpr hid), if_pos hid]
          exact ⟨rfl, rfl, rfl, rfl, rfl, rfl⟩
        · rw [if_neg (fun hb => hid (beq_iff_eq.mp hb)), if_neg hid]
          exact ⟨rfl, rfl, rfl, rfl, rfl, rfl⟩

/-- Witness data for C10: one stored listing with 7 views, once read
through a warm cache and once through a cold one. -/
def vListing : Listing := ⟨9, 9, 100, 1, true, 7⟩

def vGeoDB : GeoDB := ⟨[], [], [vListing]⟩

def vStore : List (String × Listing) := [(listing_detail_cache_key 9, vListing)]

/-- **C10** witness: the cache-hit clause on the warm store `vStore`
(nothing changes), and the cache-miss clauses on the empty store — the
table keeps its length and the single listing's view count becomes 8. -/
theorem C10_witness :
    listingDetailGet vGeoDB vStore 9 = (some vListing, vGeoDB, vStore) ∧
    (listingDetailGet vGeoDB [] 9).2.1.listings.length = vGeoDB.listings.length ∧
    ∃ x', (listingDetailGet vGeoDB [] 9).2.1.listings[0]? = some x' ∧
      x'.views_count = vListing.views_count + 1 := by
  refine ⟨?_, ?_, ?_⟩
  · exact C10_listing_detail_read_effects.1 vGeoDB vStore 9 vListing
      (by simp [vStore, List.lookup])
  · exact (C10_listing_detail_read_effects.2 vGeoDB [] 9 rfl).1
  · obtain ⟨x', hx', hviews, -⟩ :=
      (C10_listing_detail_read_effects.2 vGeoDB [] 9 rfl).2 0 vListing rfl
    exact ⟨x', hx', by simpa [vListing] using hviews⟩

end RESPlateForm
